import Mathlib

/-!
Verification of the `native-serial` wrapper and its port-management core.

The repository consists of a thin JavaScript wrapper (`src/index.js`, plus two
variant wrappers in `src/unnamed/part_001`) over a native binding
(`./build.js`) whose Rust implementation is described by the specification:
port enumeration, a per-open-port worker with a FIFO pending-write queue, a
settings resolver with documented defaults, and an idempotent close.

The wrapper layer is embedded directly from the JavaScript source.  The native
core (settings resolver, open-port worker, close/write surface) is not present
under `src/`, so it is modelled from the specification, as marked on each
definition.
-/

namespace NativeSerial

/-- Port kind, the closed tag set {USB, Bluetooth, PCI, Unknown} exposed by the
native enumeration (`type` in `index.js`, "Usb" | "Bluetooth" | "Pci" |
"Unknown" per the README). -/
inductive PortType where
  | usb
  | bluetooth
  | pci
  | unknown
deriving DecidableEq, Repr

/-- USB identity attached to a USB port entry (README `UsbInfo`). -/
structure UsbInfo where
  vid : Nat
  pid : Nat
  serial : Option String
  manufacturer : Option String
  product : Option String
deriving DecidableEq, Repr

/-- One entry of the native enumeration: the data fields of a native
`AvailablePort` object (its `open` method is modelled separately as the
native open function, shared by all instances as in JavaScript, with the
port identity supplied through the receiver of the call). -/
structure AvailablePort where
  path : String
  type : PortType
  usb : Option UsbInfo
deriving DecidableEq, Repr

/-- The receiver (`this` value) a call to the native prototype method
`AvailablePort.prototype.open` is made with.  In `src/index.js` the `open`
field of a mapped descriptor is the unbound prototype method, so invoking
`descriptor.open(...)` supplies the plain mapped object
`{open, path, type, usb}` as receiver; the `part_001` variants call
`p.open(...)` on the captured native port `p` itself.  The mapped-object
receiver is identified by its data fields (its `open` property is the same
prototype method). -/
inductive Receiver where
  | nativePort (p : AvailablePort)
  | mappedObject (path : String) (type : PortType) (usb : Option UsbInfo)
deriving DecidableEq, Repr

/-- One invocation of the native `open`: the receiver it is called on and
the argument list it receives, in order. -/
structure NativeOpenCall (V : Type) where
  receiver : Receiver
  args : List V

/-- A descriptor returned by a wrapper `listPorts()`: a freshly created plain
object `{open, path, type, usb}`.  The source field `open` is named `openFn`
here (`open` is reserved in Lean); it is modelled at arity three since the
public contract is `open(onDataReceived, onError, settings)`. -/
structure PortDescriptor (V H : Type) where
  openFn : V → V → V → H
  path : String
  type : PortType
  usb : Option UsbInfo

/-- `src/index.js`:
`p => ({ open: p.open, path: p.path, type: p.type, usb: p.usb })`.
The `open` field is the unbound native method reference, so a call
`descriptor.open(a, b, c)` executes the native open with the plain mapped
object as receiver and the argument list `[a, b, c]` unchanged, returning
its result directly.  `nativeOpen` is the native prototype method. -/
def mainDescriptor {V H : Type} (nativeOpen : NativeOpenCall V → H)
    (p : AvailablePort) : PortDescriptor V H where
  openFn := fun a b c =>
    nativeOpen ⟨Receiver.mappedObject p.path p.type p.usb, [a, b, c]⟩
  path := p.path
  type := p.type
  usb := p.usb

/-- First `src/unnamed/part_001` variant:
`open: (onDataReceived, onError, settings) => p.open(onDataReceived, onError, settings)`.
The arrow closes over the native port `p` and forwards all three arguments. -/
def variantADescriptor {V H : Type} (nativeOpen : NativeOpenCall V → H)
    (p : AvailablePort) : PortDescriptor V H where
  openFn := fun a b c => nativeOpen ⟨Receiver.nativePort p, [a, b, c]⟩
  path := p.path
  type := p.type
  usb := p.usb

/-- Second `src/unnamed/part_001` variant: `open: s => p.open(s)`.
The arrow has a single parameter, so a call with three arguments binds only
the first and invokes the native open with the one-element argument list
`[s]`; the second and third arguments are discarded. -/
def variantBDescriptor {V H : Type} (nativeOpen : NativeOpenCall V → H)
    (p : AvailablePort) : PortDescriptor V H where
  openFn := fun a _ _ => nativeOpen ⟨Receiver.nativePort p, [a]⟩
  path := p.path
  type := p.type
  usb := p.usb

/-- `src/index.js` `listPorts`: `lp().map(p => ({ open: p.open, ... }))`,
applied to the snapshot `enum` returned by the native enumeration `lp()`
(per the specification, a pure synchronous catalog query). -/
def listPortsMain {V H : Type} (nativeOpen : NativeOpenCall V → H)
    (enum : List AvailablePort) : List (PortDescriptor V H) :=
  enum.map (mainDescriptor nativeOpen)

/-- First `part_001` variant of `listPorts`. -/
def listPortsVariantA {V H : Type} (nativeOpen : NativeOpenCall V → H)
    (enum : List AvailablePort) : List (PortDescriptor V H) :=
  enum.map (variantADescriptor nativeOpen)

/-- Second `part_001` variant of `listPorts`. -/
def listPortsVariantB {V H : Type} (nativeOpen : NativeOpenCall V → H)
    (enum : List AvailablePort) : List (PortDescriptor V H) :=
  enum.map (variantBDescriptor nativeOpen)

/-- The data fields of a descriptor sequence, for field-by-field comparison
(descriptors carry no identity beyond field equality). -/
def descriptorFields {V H : Type} (ds : List (PortDescriptor V H)) :
    List (String × PortType × Option UsbInfo) :=
  ds.map (fun d => (d.path, d.type, d.usb))

/-- The destructured native binding
`const { DataBits, FlowControl, OpenPort, Parity, StopBits, listPorts: lp, AvailablePort } = require('./build.js')`
in `src/index.js`.  The five enum objects, the `OpenPort` class and the
`AvailablePort` class are opaque binding values of type `B`; the native
`listPorts` is the enumeration function. -/
structure NativeBinding (B : Type) where
  DataBits : B
  FlowControl : B
  OpenPort : B
  Parity : B
  StopBits : B
  listPorts : Unit → List AvailablePort
  AvailablePort : B

/-- The `module.exports` object of `src/index.js`. -/
structure ModuleExports (V H B : Type) where
  DataBits : B
  FlowControl : B
  OpenPort : B
  Parity : B
  StopBits : B
  listPorts : Unit → List (PortDescriptor V H)
  AvailablePort : B

/-- `module.exports = { DataBits, FlowControl, OpenPort, Parity, StopBits, listPorts, AvailablePort }`:
every field is the binding value passed through unchanged except `listPorts`,
which is the wrapper function defined in `src/index.js`. -/
def moduleExports {V H B : Type} (nativeOpen : NativeOpenCall V → H)
    (b : NativeBinding B) : ModuleExports V H B where
  DataBits := b.DataBits
  FlowControl := b.FlowControl
  OpenPort := b.OpenPort
  Parity := b.Parity
  StopBits := b.StopBits
  listPorts := fun u => listPortsMain nativeOpen (b.listPorts u)
  AvailablePort := b.AvailablePort

/-- The property names of the `module.exports` object literal in
`src/index.js`, in source order. -/
def exportedNames : List String :=
  ["DataBits", "FlowControl", "OpenPort", "Parity", "StopBits",
   "listPorts", "AvailablePort"]

/-- Data bits option set, DataBits{Five, Six, Seven, Eight}. -/
inductive DataBits where
  | five
  | six
  | seven
  | eight
deriving DecidableEq, Repr

/-- Parity option set, Parity{None, Odd, Even}. -/
inductive Parity where
  | none
  | odd
  | even
deriving DecidableEq, Repr

/-- Stop bits option set, StopBits{One, Two}. -/
inductive StopBits where
  | one
  | two
deriving DecidableEq, Repr

/-- Flow control option set, FlowControl{None, Software, Hardware}. -/
inductive FlowControl where
  | none
  | software
  | hardware
deriving DecidableEq, Repr

/-- Modelled from the spec: caller-supplied `PartialSettings`
(`PortSettings` in the README), every field optional; the native settings
type is not under `src/`. -/
structure PartialSettings where
  baudRate : Option Int
  timeout : Option Int
  dataBits : Option DataBits
  parity : Option Parity
  stopBits : Option StopBits
  flowControl : Option FlowControl
deriving DecidableEq, Repr

/-- Modelled from the spec: fully resolved settings, every field concrete. -/
structure ResolvedSettings where
  baudRate : Int
  timeout : Int
  dataBits : DataBits
  parity : Parity
  stopBits : StopBits
  flowControl : FlowControl
deriving DecidableEq, Repr

/-- Modelled from the spec: the error taxonomy entry `InvalidSettingsError`
(a provided setting is out of domain). -/
inductive SettingsError where
  | invalidSettings
deriving DecidableEq, Repr

/-- A provided baud rate is in domain when it is a positive integer. -/
def baudRateOk : Option Int → Bool
  | Option.none => true
  | Option.some b => decide (0 < b)

/-- A provided timeout is in domain when it is a nonnegative duration (ms). -/
def timeoutOk : Option Int → Bool
  | Option.none => true
  | Option.some t => decide (0 ≤ t)

/-- Modelled from the spec: the settings resolver
`resolve(raw: PartialSettings) -> ResolvedSettings` of the native core
(not under `src/`).  Fills every omitted field with its documented default
(baudRate 115200, timeout 10 ms, dataBits Eight, parity None, stopBits One,
flowControl None); fails with `InvalidSettingsError` when a provided field
is outside its declared domain (e.g. baudRate ≤ 0). -/
def resolve (raw : PartialSettings) : Except SettingsError ResolvedSettings :=
  if baudRateOk raw.baudRate && timeoutOk raw.timeout then
    Except.ok
      { baudRate := raw.baudRate.getD 115200
        timeout := raw.timeout.getD 10
        dataBits := raw.dataBits.getD DataBits.eight
        parity := raw.parity.getD Parity.none
        stopBits := raw.stopBits.getD StopBits.one
        flowControl := raw.flowControl.getD FlowControl.none }
  else
    Except.error SettingsError.invalidSettings

/-- A `PartialSettings` value with every field omitted. -/
def emptySettings : PartialSettings :=
  ⟨Option.none, Option.none, Option.none, Option.none, Option.none, Option.none⟩

/-- Modelled from the spec: observable device accesses of the open path;
opening the OS device handle is the first possible access. -/
inductive DeviceAction where
  | openDevice
deriving DecidableEq, Repr

/-- Modelled from the spec: the synchronous part of
`PortDescriptor.open` — settings are resolved first, and only a successful
resolution proceeds to open the OS device; an `InvalidSettingsError` is
surfaced synchronously before any device access.  Returns the list of
device accesses performed together with the resolution outcome. -/
def openPort (raw : PartialSettings) :
    List DeviceAction × Except SettingsError ResolvedSettings :=
  match resolve raw with
  | Except.error e => ([], Except.error e)
  | Except.ok s => ([DeviceAction.openDevice], Except.ok s)

/-- Modelled from the spec: the observable state of the open-port worker,
starting from a successfully opened session (`running`); `closing` flushes
and releases the device handle; `closed` is terminal. -/
inductive SessionState where
  | running
  | closing
  | closed
deriving DecidableEq, Repr

/-- Modelled from the spec: one `OpenPortSession` — the pending-write queue,
the stop flag, the trace of writes issued to the device in order, and a
count of device-handle releases (to state the released-exactly-once
property).  The queue is pushed by the caller and drained FIFO by the
worker. -/
structure Session where
  state : SessionState
  stopFlag : Bool
  queue : List (List Nat)
  device : List (List Nat)
  releaseCount : Nat
deriving DecidableEq, Repr

/-- A session immediately after a successful open: running, stop flag clear,
nothing queued, nothing yet written, device handle held (not released). -/
def initialSession : Session :=
  { state := SessionState.running
    stopFlag := false
    queue := []
    device := []
    releaseCount := 0 }

/-- Modelled from the spec: what the bounded-timeout read step of one worker
iteration observes — a timeout with no data (a normal no-op), received
bytes, a non-fatal I/O error, or a fatal device error. -/
inductive IoEvent where
  | quiet
  | recv (b : List Nat)
  | ioFail
  | ioFatal
deriving DecidableEq, Repr

/-- A callback delivered to the caller: bytes via the data callback, or an
error via the error callback. -/
inductive Callback where
  | data (b : List Nat)
  | error
deriving DecidableEq, Repr

/-- Result of `OpenPortHandle.write`. -/
inductive WriteResult where
  | accepted
  | closedError
deriving DecidableEq, Repr

/-- Modelled from the spec: `OpenPortHandle.close()` — signals the stop
flag; it may return before the worker has released the device. -/
def close (s : Session) : Session :=
  { s with stopFlag := true }

/-- Modelled from the spec: `OpenPortHandle.write(bytes)` — non-blocking;
raises `ClosedError` only if the session is already `Closed`; otherwise
the bytes are enqueued at the tail of the pending-write queue (accepted
even while a previous write is still queued, and even after a close
request while the worker has not yet terminated — `Closing` flushes the
remaining queued writes best-effort). -/
def write (s : Session) (w : List Nat) : Session × WriteResult :=
  if s.state = SessionState.closed then
    (s, WriteResult.closedError)
  else
    ({ s with queue := s.queue ++ [w] }, WriteResult.accepted)

/-- The worker drains the pending-write queue in FIFO order, issuing each
write to the device. -/
def drainQueue (s : Session) : Session :=
  { s with device := s.device ++ s.queue, queue := [] }

/-- Step 3 of the worker loop: check the stop flag; if set, transition to
`Closing`. -/
def checkStop (s : Session) : Session :=
  if s.stopFlag then { s with state := SessionState.closing } else s

/-- Modelled from the spec: one iteration of the worker loop, in the
spec's order — (1) the bounded-timeout read, delivering data or a
non-fatal error callback (a fatal device error delivers one error
callback and transitions to `Closing`); (2) the FIFO drain of the
pending-write queue; (3) the stop-flag check, transitioning to `Closing`
when set.  A `close()` request does not interrupt the iteration's
in-flight read, so its callback may still be delivered after the request.
In `closing` the worker flushes the remaining queued writes best-effort,
releases the device handle, and becomes `closed`.  `closed` is terminal:
no work, no callbacks. -/
def workerStep (io : IoEvent) (s : Session) : Session × List Callback :=
  match s.state with
  | SessionState.closed => (s, [])
  | SessionState.closing =>
      ({ drainQueue s with
          state := SessionState.closed
          releaseCount := s.releaseCount + 1 }, [])
  | SessionState.running =>
      match io with
      | IoEvent.quiet => (checkStop (drainQueue s), [])
      | IoEvent.recv b => (checkStop (drainQueue s), [Callback.data b])
      | IoEvent.ioFail => (checkStop (drainQueue s), [Callback.error])
      | IoEvent.ioFatal =>
          ({ s with state := SessionState.closing }, [Callback.error])

/-- An observable event on one open session: a caller `close()`, a caller
`write(w)`, or one worker iteration with its I/O observation. -/
inductive Event where
  | callClose
  | callWrite (w : List Nat)
  | step (io : IoEvent)
deriving DecidableEq, Repr

/-- Apply one event to a session, collecting the callbacks it delivers
(caller-side calls deliver none). -/
def applyEvent : Event → Session → Session × List Callback
  | Event.callClose, s => (close s, [])
  | Event.callWrite w, s => ((write s w).1, [])
  | Event.step io, s => workerStep io s

/-- Run a sequence of events, concatenating the delivered callbacks in
order. -/
def execEvents : List Event → Session → Session × List Callback
  | [], s => (s, [])
  | e :: es, s =>
      let sc := applyEvent e s
      let rest := execEvents es sc.1
      (rest.1, sc.2 ++ rest.2)

/-- The payloads of the writes accepted (successfully enqueued) along an
event sequence, in the order they were enqueued. -/
def acceptedWrites : List Event → Session → List (List Nat)
  | [], _ => []
  | e :: es, s =>
      (match e with
        | Event.callWrite w =>
            match (write s w).2 with
            | WriteResult.accepted => [w]
            | WriteResult.closedError => []
        | _ => []) ++ acceptedWrites es (applyEvent e s).1

/-- One event preserves the FIFO accounting: afterwards, the writes issued to
the device followed by the still-pending queue extend the previous total by
exactly the write accepted by this event (if any). -/
lemma applyEvent_total (e : Event) (s : Session) :
    ((applyEvent e s).1).device ++ ((applyEvent e s).1).queue =
      s.device ++ s.queue ++ acceptedWrites [e] s := by
  obtain ⟨st, fl, q, dv, rc⟩ := s
  cases e with
  | callClose => simp [applyEvent, close, acceptedWrites]
  | callWrite w =>
      cases fl <;> cases st <;>
        simp [applyEvent, write, acceptedWrites]
  | step io =>
      cases fl <;> cases st <;> cases io <;>
        simp [applyEvent, workerStep, drainQueue, checkStop, acceptedWrites]

/-- FIFO accounting along any event sequence: the device trace followed by
the pending queue equals the starting total extended by all accepted writes
in enqueue order. -/
lemma execEvents_total (es : List Event) (s : Session) :
    ((execEvents es s).1).device ++ ((execEvents es s).1).queue =
      s.device ++ s.queue ++ acceptedWrites es s := by
  induction es generalizing s with
  | nil => simp [execEvents, acceptedWrites]
  | cons e es ih =>
      have h1 := applyEvent_total e s
      simp only [acceptedWrites, List.append_nil] at h1
      simp only [execEvents, acceptedWrites]
      rw [ih (applyEvent e s).1, h1]
      simp [List.append_assoc]

/-- The `closed` state is terminal and silent: no event delivers a
callback or leaves it. -/
lemma applyEvent_closed (e : Event) (s : Session)
    (h : s.state = SessionState.closed) :
    (applyEvent e s).2 = [] ∧
      ((applyEvent e s).1).state = SessionState.closed := by
  cases e with
  | callClose => simp [applyEvent, close, h]
  | callWrite w => simp [applyEvent, write, h]
  | step io => simp [applyEvent, workerStep, h]

/-- From a `closed` session, no event sequence delivers any callback and
the session stays `closed`. -/
lemma execEvents_closed (es : List Event) (s : Session)
    (h : s.state = SessionState.closed) :
    (execEvents es s).2 = [] ∧
      ((execEvents es s).1).state = SessionState.closed := by
  induction es generalizing s with
  | nil => exact ⟨rfl, h⟩
  | cons e es ih =>
      obtain ⟨h1, h2⟩ := applyEvent_closed e s h
      obtain ⟨h3, h4⟩ := ih (applyEvent e s).1 h2
      refine ⟨?_, ?_⟩
      · simp [execEvents, h1, h3]
      · simpa [execEvents] using h4

/-- Once the stop flag is set, two further worker iterations suffice to
reach the terminal `closed` state: the current iteration observes the flag
at step 3 (at the latest) and transitions to `closing`, and the next one
releases the handle and terminates. -/
lemma two_steps_closed (s : Session) (io1 io2 : IoEvent)
    (h : s.stopFlag = true) :
    ((workerStep io2 (workerStep io1 s).1).1).state =
      SessionState.closed := by
  rcases s with ⟨st, fl, q, dv, rc⟩
  cases fl with
  | false => exact absurd h (by simp)
  | true =>
      cases st <;> cases io1 <;> cases io2 <;>
        simp [workerStep, drainQueue, checkStop]

/-- The device handle has been released exactly once in the terminal state
and not at all before it. -/
def ReleaseInv (s : Session) : Prop :=
  s.releaseCount = (if s.state = SessionState.closed then 1 else 0)

/-- Every event preserves the release invariant. -/
lemma applyEvent_release (e : Event) (s : Session) (h : ReleaseInv s) :
    ReleaseInv ((applyEvent e s).1) := by
  cases e with
  | callClose => simpa [ReleaseInv, applyEvent, close] using h
  | callWrite w =>
      by_cases hc : s.state = SessionState.closed <;>
        simpa [ReleaseInv, applyEvent, write, hc] using h
  | step io =>
      cases hst : s.state with
      | closed => simpa [ReleaseInv, applyEvent, workerStep, hst] using h
      | closing =>
          have h0 : s.releaseCount = 0 := by simpa [ReleaseInv, hst] using h
          simp [ReleaseInv, applyEvent, workerStep, drainQueue, hst, h0]
      | running =>
          have h0 : s.releaseCount = 0 := by simpa [ReleaseInv, hst] using h
          by_cases hf : s.stopFlag = true <;>
            cases io <;>
              simp [ReleaseInv, applyEvent, workerStep, drainQueue, checkStop,
                hst, hf, h0]

/-- The release invariant holds after any event sequence from an invariant
state. -/
lemma execEvents_release (es : List Event) (s : Session) (h : ReleaseInv s) :
    ReleaseInv ((execEvents es s).1) := by
  induction es generalizing s with
  | nil => exact h
  | cons e es ih =>
      simpa [execEvents] using ih (applyEvent e s).1 (applyEvent_release e s h)

/-- Claim C1, as amended.  A descriptor produced by the main wrapper
(`src/index.js`, `open: p.open`) or by the first `part_001` variant invokes
the underlying native open with exactly the three arguments
`(onData, onError, settings)` in that order and returns its result
immediately; the second `part_001` variant (`open: s => p.open(s)`) invokes
the native open with only the first argument, dropping `onError` and
`settings`. -/
theorem c1_open_argument_forwarding (V H : Type)
    (nativeOpen : NativeOpenCall V → H) (p : AvailablePort) (a b c : V) :
    (mainDescriptor nativeOpen p).openFn a b c =
        nativeOpen ⟨Receiver.mappedObject p.path p.type p.usb, [a, b, c]⟩ ∧
      (variantADescriptor nativeOpen p).openFn a b c =
        nativeOpen ⟨Receiver.nativePort p, [a, b, c]⟩ ∧
      (variantBDescriptor nativeOpen p).openFn a b c =
        nativeOpen ⟨Receiver.nativePort p, [a]⟩ :=
  ⟨rfl, rfl, rfl⟩

/-- Claim C1, counterexample to the claim as stated: a descriptor returned
by the second `part_001` variant of `listPorts()` (`open: s => p.open(s)`),
opened with the three arguments 1, 2, 3, passes the native open the
argument list `[1]` — not the three registered arguments — so the
`onError` callback argument is dropped by that wrapper. -/
theorem c1_counterexample :
    ((List.get
          (listPortsVariantB (fun call : NativeOpenCall Nat => call)
            [{ path := "/dev/ttyUSB0", type := PortType.usb,
               usb := Option.none }])
          ⟨0, Nat.zero_lt_one⟩).openFn 1 2 3).args = [1] ∧
      ((List.get
          (listPortsVariantB (fun call : NativeOpenCall Nat => call)
            [{ path := "/dev/ttyUSB0", type := PortType.usb,
               usb := Option.none }])
          ⟨0, Nat.zero_lt_one⟩).openFn 1 2 3).args ≠ [1, 2, 3] :=
  ⟨rfl, by decide⟩

/-- Claim C2: along any sequence of caller calls and worker iterations on
one open session, the writes issued to the device followed by the writes
still pending in the queue are exactly the accepted writes in the order
they were enqueued — the pending-write queue is drained FIFO and the device
receives the writes in enqueue order. -/
theorem c2_write_fifo_order (es : List Event) :
    ((execEvents es initialSession).1).device ++
        ((execEvents es initialSession).1).queue =
      acceptedWrites es initialSession := by
  simpa [initialSession] using execEvents_total es initialSession

/-- Claim C3: `listPorts()` in `src/index.js` is a pure function of the
enumeration snapshot; each returned descriptor is a freshly created object
whose `path`, `type` and `usb` fields are those of the underlying
enumeration entry, unchanged and in order. -/
theorem c3_listPorts_field_preservation (V H : Type)
    (nativeOpen : NativeOpenCall V → H) (enum : List AvailablePort) :
    descriptorFields (listPortsMain nativeOpen enum) =
      enum.map (fun p => (p.path, p.type, p.usb)) := by
  simp [descriptorFields, listPortsMain, mainDescriptor, List.map_map]

/-- Claim C4: two consecutive `listPorts()` calls over the same underlying
enumeration result yield descriptor sequences that are equal field by
field. -/
theorem c4_enumeration_idempotent (V H : Type)
    (nativeOpen : NativeOpenCall V → H) (e1 e2 : List AvailablePort)
    (h : e1 = e2) :
    descriptorFields (listPortsMain nativeOpen e1) =
      descriptorFields (listPortsMain nativeOpen e2) := by
  rw [h]

/-- Witness for claim C4 at a concrete one-port enumeration. -/
theorem c4_enumeration_idempotent_witness :
    descriptorFields
        (listPortsMain (fun call : NativeOpenCall Nat => call)
          [{ path := "/dev/ttyUSB0", type := PortType.usb,
             usb := Option.none }]) =
      descriptorFields
        (listPortsMain (fun call : NativeOpenCall Nat => call)
          [{ path := "/dev/ttyUSB0", type := PortType.usb,
             usb := Option.none }]) :=
  c4_enumeration_idempotent Nat (NativeOpenCall Nat)
    (fun call => call)
    [{ path := "/dev/ttyUSB0", type := PortType.usb, usb := Option.none }]
    [{ path := "/dev/ttyUSB0", type := PortType.usb, usb := Option.none }]
    rfl

/-- Claim C5: resolving an empty `PartialSettings` (every field omitted)
succeeds with exactly the documented defaults: baudRate 115200, timeout
10 ms, dataBits Eight, parity None, stopBits One, flowControl None. -/
theorem c5_empty_settings_defaults :
    resolve emptySettings =
      Except.ok
        { baudRate := 115200, timeout := 10, dataBits := DataBits.eight,
          parity := Parity.none, stopBits := StopBits.one,
          flowControl := FlowControl.none } :=
  rfl

/-- Claim C6: a `PartialSettings` whose provided baud rate is out of domain
(≤ 0) makes the open path fail synchronously with `InvalidSettingsError`,
with the empty device-access trace — no device access happens before the
failure. -/
theorem c6_invalid_settings_no_device_access (raw : PartialSettings)
    (b : Int) (hb : raw.baudRate = Option.some b) (hle : b ≤ 0) :
    openPort raw = ([], Except.error SettingsError.invalidSettings) := by
  have hbad : baudRateOk raw.baudRate = false := by
    rw [hb]
    simp only [baudRateOk, decide_eq_false_iff_not]
    omega
  simp [openPort, resolve, hbad]

/-- Witness for claim C6 at `PartialSettings{baudRate: -1}`. -/
theorem c6_invalid_settings_witness :
    openPort { emptySettings with baudRate := Option.some (-1) } =
      ([], Except.error SettingsError.invalidSettings) :=
  c6_invalid_settings_no_device_access
    { emptySettings with baudRate := Option.some (-1) } (-1) rfl (by decide)

/-- Claim C7, counterexample to the claim as stated: on a fresh open
session, the worker iteration in flight when `close()` is requested still
delivers its data callback (the stop flag is only checked at step 3 of the
loop, after the bounded-timeout read), and a `write()` issued after
`close()` but before the worker reaches `Closed` is accepted — its bytes
are even flushed to the device by the `Closing` transition — so it is
neither a `ClosedError` nor a no-op. -/
theorem c7_counterexample :
    (execEvents [Event.step (IoEvent.recv [65])] (close initialSession)).2 =
        [Callback.data [65]] ∧
      (write (close initialSession) [7]).2 = WriteResult.accepted ∧
      ((execEvents
          [Event.callClose, Event.callWrite [7], Event.step IoEvent.quiet,
           Event.step IoEvent.quiet] initialSession).1).device = [[7]] := by
  decide

/-- Claim C7, as amended.  Once the session reaches the terminal `Closed`
state — which happens within at most two worker iterations after `close()`
sets the stop flag — no further data or error callbacks are delivered by
any sequence of caller calls and worker iterations, and every subsequent
`write()` raises `ClosedError`, the same behaviour every time (`write` is
a function of the session state).  Before `Closed` is reached, the
in-flight iteration may still deliver one callback and a `write()` is
still accepted (see the counterexample). -/
theorem c7_closed_terminal_behaviour :
    (∀ (s : Session) (es : List Event), s.state = SessionState.closed →
        (execEvents es s).2 = [] ∧
          ((execEvents es s).1).state = SessionState.closed) ∧
      (∀ (s : Session) (w : List Nat), s.state = SessionState.closed →
        (write s w).2 = WriteResult.closedError) ∧
      ∀ (s : Session) (io1 io2 : IoEvent), s.stopFlag = true →
        ((workerStep io2 (workerStep io1 s).1).1).state =
          SessionState.closed := by
  refine ⟨fun s es h => execEvents_closed es s h, fun s w h => ?_, ?_⟩
  · simp [write, h]
  · exact fun s io1 io2 h => two_steps_closed s io1 io2 h

/-- Witness for the amended claim C7, at a concrete closed session and a
concrete closing run. -/
theorem c7_closed_terminal_witness :
    ((execEvents [Event.step IoEvent.quiet]
          ⟨SessionState.closed, true, [], [], 1⟩).2 = [] ∧
        ((execEvents [Event.step IoEvent.quiet]
            ⟨SessionState.closed, true, [], [], 1⟩).1).state =
          SessionState.closed) ∧
      (write ⟨SessionState.closed, true, [], [], 1⟩ [7]).2 =
        WriteResult.closedError ∧
      ((workerStep IoEvent.quiet
          (workerStep IoEvent.quiet (close initialSession)).1).1).state =
        SessionState.closed :=
  ⟨c7_closed_terminal_behaviour.1 ⟨SessionState.closed, true, [], [], 1⟩
      [Event.step IoEvent.quiet] rfl,
    c7_closed_terminal_behaviour.2.1 ⟨SessionState.closed, true, [], [], 1⟩
      [7] rfl,
    c7_closed_terminal_behaviour.2.2 (close initialSession)
      IoEvent.quiet IoEvent.quiet rfl⟩

/-- Claim C8: `close()` is idempotent — a second call leaves the session
state exactly as one call does — and the device handle is released exactly
once over the session's lifetime: along any event sequence on an open
session the release count is 1 once the terminal `Closed` state is reached
and 0 before it, hence never more than 1. -/
theorem c8_close_idempotent_release_once :
    (∀ s : Session, close (close s) = close s) ∧
      (∀ es : List Event,
        ((execEvents es initialSession).1).releaseCount ≤ 1) ∧
      ∀ es : List Event,
        ((execEvents es initialSession).1).releaseCount =
          (if ((execEvents es initialSession).1).state = SessionState.closed
            then 1 else 0) := by
  have key : ∀ es : List Event,
      ((execEvents es initialSession).1).releaseCount =
        (if ((execEvents es initialSession).1).state = SessionState.closed
          then 1 else 0) :=
    fun es => execEvents_release es initialSession
      (by simp [ReleaseInv, initialSession])
  refine ⟨fun s => rfl, fun es => ?_, key⟩
  rw [key es]
  split <;> simp

/-- Claim C9: in the main wrapper (`src/index.js`) the `open` property is
the unbound native method reference, so invoking `descriptor.open(...)`
executes the native open with the plain mapped object (identified by its
`path`, `type`, `usb` fields) as receiver; in both `part_001` variants the
arrow closes over the native port `p`, so the native open runs with the
native `AvailablePort` itself as receiver. -/
theorem c9_open_receiver (V : Type) (p : AvailablePort) (a b c : V) :
    ((mainDescriptor (fun call : NativeOpenCall V => call) p).openFn
          a b c).receiver =
        Receiver.mappedObject p.path p.type p.usb ∧
      ((variantADescriptor (fun call : NativeOpenCall V => call) p).openFn
          a b c).receiver = Receiver.nativePort p ∧
      ((variantBDescriptor (fun call : NativeOpenCall V => call) p).openFn
          a b c).receiver = Receiver.nativePort p :=
  ⟨rfl, rfl, rfl⟩

/-- Claim C10: `module.exports` of `src/index.js` has exactly the seven
property names `DataBits`, `FlowControl`, `OpenPort`, `Parity`, `StopBits`,
`listPorts`, `AvailablePort`, and every exported value except `listPorts`
is the corresponding native binding value passed through unchanged, while
`listPorts` is the wrapper over the native enumeration. -/
theorem c10_module_exports (V H B : Type)
    (nativeOpen : NativeOpenCall V → H) (b : NativeBinding B) :
    exportedNames =
        ["DataBits", "FlowControl", "OpenPort", "Parity", "StopBits",
         "listPorts", "AvailablePort"] ∧
      (moduleExports nativeOpen b).DataBits = b.DataBits ∧
      (moduleExports nativeOpen b).FlowControl = b.FlowControl ∧
      (moduleExports nativeOpen b).OpenPort = b.OpenPort ∧
      (moduleExports nativeOpen b).Parity = b.Parity ∧
      (moduleExports nativeOpen b).StopBits = b.StopBits ∧
      (moduleExports nativeOpen b).AvailablePort = b.AvailablePort ∧
      (moduleExports nativeOpen b).listPorts =
        fun u => listPortsMain nativeOpen (b.listPorts u) :=
  ⟨rfl, rfl, rfl, rfl, rfl, rfl, rfl, rfl⟩

end NativeSerial
